import Mathlib

/-!
Verification of the product-catalog repository (React/TypeScript frontend,
Node/Express backend) against its natural-language specification.

The development shallow-embeds the relevant code:

* `TextUtils` — `frontend/src/utils/textUtils.ts` (`normalizeText`),
  modelling JS strings as `List Char`, `String.prototype.toLowerCase`,
  `String.prototype.normalize('NFD')` (restricted to the Latin-1 letters the
  application data uses; every other character decomposes to itself),
  the combining-mark range `[̀-ͯ]`, the character class
  `[^a-z0-9\s]`, and `String.prototype.trim`.
* `Frontend` — `frontend/src/utils/productUtils.ts`
  (`filterProducts`, `sortProductsByPrice`, `filterAndSortProducts`) and
  `frontend/src/services` product fetch/create (`getProducts`,
  `createProduct`).  `Array.prototype.sort` with comparator
  `a.price - b.price` is modelled by the stable `List.mergeSort`; the
  spread-copy-then-sort-in-place idiom of `sortProductsByPrice` is modelled
  on an explicit heap of arrays.
* `Backend` — the `Product` domain entity (constructor validations),
  `CreateProductUseCase.execute`, `GetProductUseCase.execute`, the Sequelize
  repository (`findByName` with `name.trim()`, `getAll` ordered by name,
  `create` appending a row), and the HTTP router's field-presence gate.
  The database table is modelled as a `List Product`; JS request-body values
  are modelled by `JSValue` so that absent fields (`undefined`), `null` and
  falsiness are distinguishable.
-/

namespace TextUtils

/-- JS whitespace (`\s` and the set removed by `String.prototype.trim`):
TAB, LF, VT, FF, CR, SP, NBSP, and the Unicode space separators plus BOM. -/
def isJsWhitespaceCode (n : Nat) : Bool :=
  n == 9 || n == 10 || n == 11 || n == 12 || n == 13 || n == 32 ||
  n == 0xA0 || n == 0x1680 || (0x2000 ≤ n && n ≤ 0x200A) ||
  n == 0x2028 || n == 0x2029 || n == 0x202F || n == 0x205F ||
  n == 0x3000 || n == 0xFEFF

def isJsWhitespace (c : Char) : Bool := isJsWhitespaceCode c.toNat

/-- `String.prototype.toLowerCase`, restricted to the Basic Latin and
Latin-1 ranges (all the application's data): `A`–`Z` and `À`–`Þ`
(except `×`) map down by 32, everything else is fixed. -/
def jsToLower (c : Char) : Char :=
  if 65 ≤ c.toNat ∧ c.toNat ≤ 90 then Char.ofNat (c.toNat + 32)
  else if (0xC0 ≤ c.toNat ∧ c.toNat ≤ 0xDE) ∧ c.toNat ≠ 0xD7 then Char.ofNat (c.toNat + 32)
  else c

/-- Canonical (NFD) decomposition of one character,
`String.prototype.normalize('NFD')`, restricted to the decomposable
lowercase Latin-1 letters; all other characters decompose to themselves. -/
def nfd (c : Char) : List Char :=
  if c.toNat = 0xE0 then ['a', Char.ofNat 0x300]      -- à
  else if c.toNat = 0xE1 then ['a', Char.ofNat 0x301] -- á
  else if c.toNat = 0xE2 then ['a', Char.ofNat 0x302] -- â
  else if c.toNat = 0xE3 then ['a', Char.ofNat 0x303] -- ã
  else if c.toNat = 0xE4 then ['a', Char.ofNat 0x308] -- ä
  else if c.toNat = 0xE5 then ['a', Char.ofNat 0x30A] -- å
  else if c.toNat = 0xE7 then ['c', Char.ofNat 0x327] -- ç
  else if c.toNat = 0xE8 then ['e', Char.ofNat 0x300] -- è
  else if c.toNat = 0xE9 then ['e', Char.ofNat 0x301] -- é
  else if c.toNat = 0xEA then ['e', Char.ofNat 0x302] -- ê
  else if c.toNat = 0xEB then ['e', Char.ofNat 0x308] -- ë
  else if c.toNat = 0xEC then ['i', Char.ofNat 0x300] -- ì
  else if c.toNat = 0xED then ['i', Char.ofNat 0x301] -- í
  else if c.toNat = 0xEE then ['i', Char.ofNat 0x302] -- î
  else if c.toNat = 0xEF then ['i', Char.ofNat 0x308] -- ï
  else if c.toNat = 0xF1 then ['n', Char.ofNat 0x303] -- ñ
  else if c.toNat = 0xF2 then ['o', Char.ofNat 0x300] -- ò
  else if c.toNat = 0xF3 then ['o', Char.ofNat 0x301] -- ó
  else if c.toNat = 0xF4 then ['o', Char.ofNat 0x302] -- ô
  else if c.toNat = 0xF5 then ['o', Char.ofNat 0x303] -- õ
  else if c.toNat = 0xF6 then ['o', Char.ofNat 0x308] -- ö
  else if c.toNat = 0xF9 then ['u', Char.ofNat 0x300] -- ù
  else if c.toNat = 0xFA then ['u', Char.ofNat 0x301] -- ú
  else if c.toNat = 0xFB then ['u', Char.ofNat 0x302] -- û
  else if c.toNat = 0xFC then ['u', Char.ofNat 0x308] -- ü
  else if c.toNat = 0xFD then ['y', Char.ofNat 0x301] -- ý
  else if c.toNat = 0xFF then ['y', Char.ofNat 0x308] -- ÿ
  else [c]

/-- The combining-mark range of the regex `[̀-ͯ]`. -/
def isCombiningMark (c : Char) : Bool :=
  0x300 ≤ c.toNat && c.toNat ≤ 0x36F

/-- Characters KEPT by the replacement `replace(/[^a-z0-9\s]/g, '')`:
lowercase ASCII letters, ASCII digits, and JS whitespace. -/
def isRegexKept (c : Char) : Bool :=
  (97 ≤ c.toNat && c.toNat ≤ 122) || (48 ≤ c.toNat && c.toNat ≤ 57) ||
  isJsWhitespace c

/-- Does `needle` occur at the front of `hay`? (Helper for `jsIncludes`.) -/
def matchesAt : List Char → List Char → Bool
  | [], _ => true
  | _ :: _, [] => false
  | a :: as, b :: bs => a == b && matchesAt as bs

/-- `hay.includes(needle)` — JS substring containment. -/
def jsIncludes (hay needle : List Char) : Bool :=
  match hay with
  | [] => needle.isEmpty
  | _ :: t => matchesAt needle hay || jsIncludes t needle

/-- `String.prototype.trim`: drop JS whitespace from both ends. -/
def jsTrim (s : List Char) : List Char :=
  ((s.dropWhile isJsWhitespace).reverse.dropWhile isJsWhitespace).reverse

/-- `normalizeText` from `textUtils.ts`:
`text.toLowerCase().normalize('NFD').replace(/[̀-ͯ]/g, '')
     .replace(/[^a-z0-9\s]/g, '').trim()`. -/
def normalizeText (s : List Char) : List Char :=
  jsTrim ((((s.map jsToLower).flatMap nfd).filter
      (fun c => !isCombiningMark c)).filter isRegexKept)

/-- The AMENDED specification contract for `normalizeText` (following the
spec's words, with the one forced change): lowercase, decompose (NFD), then
delete in a single pass every character that is a combining mark or is not a
lowercase ASCII letter, an ASCII digit, or whitespace — whitespace is KEPT,
not removed — and finally trim whitespace from both ends. -/
def normalizeTextAmendedSpec (s : List Char) : List Char :=
  jsTrim (((s.map jsToLower).flatMap nfd).filter
      (fun c => isRegexKept c && !isCombiningMark c))

end TextUtils

namespace Frontend

/-- JS `id` values of frontend products: `string | number`. -/
inductive JSId
  | str (s : String)
  | num (n : Int)
deriving DecidableEq, Repr

/-- `id.toString()` as used in the dedup comparison of `getProducts`. -/
def JSId.jsToString : JSId → String
  | .str s => s
  | .num n => ToString.toString n

/-- Frontend `Product` (`types/product.ts`): `id: string | number`,
`name: string`, `price: number`, `image?: string`, `stock?: number`. -/
structure Product where
  id : JSId
  name : List Char
  price : ℚ
  image : Option String := none
  stock : Option ℚ := none
deriving DecidableEq, Repr

/-- `ProductFilters` (`types/product.ts`). -/
structure ProductFilters where
  searchTerm : List Char
  priceRange : ℚ × ℚ
  isAscending : Bool

/-- `filterProducts` from `productUtils.ts`: keep the products whose
normalized name includes the normalized search term and whose price lies
in `[priceRange[0], priceRange[1]]`. -/
def filterProducts (products : List Product) (filters : ProductFilters) :
    List Product :=
  products.filter (fun product =>
    let normalizedProductName := TextUtils.normalizeText product.name
    let normalizedSearchTerm := TextUtils.normalizeText filters.searchTerm
    let matchesSearch := TextUtils.jsIncludes normalizedProductName normalizedSearchTerm
    let matchesPrice := decide (filters.priceRange.1 ≤ product.price) &&
      decide (product.price ≤ filters.priceRange.2)
    matchesSearch && matchesPrice)

/-- The comparator `(a, b) => isAscending ? a.price - b.price : b.price - a.price`
as the "≤" test a stable sort consults. -/
def priceLe (isAscending : Bool) (a b : Product) : Bool :=
  if isAscending then decide (a.price ≤ b.price) else decide (b.price ≤ a.price)

/-- The value computed by `[...products].sort(comparator)`: a stable sort of
the list by the comparator (JS `Array.prototype.sort` is stable). -/
def sortProductsByPriceList (products : List Product) (isAscending : Bool) :
    List Product :=
  products.mergeSort (priceLe isAscending)

/-- A heap of JS arrays, to model aliasing and in-place mutation:
references are indices, allocation appends. -/
structure Heap where
  arrays : List (List Product)

def Heap.lookup (h : Heap) (r : Nat) : List Product := h.arrays.getD r []

def Heap.alloc (h : Heap) (l : List Product) : Heap × Nat :=
  (⟨h.arrays ++ [l]⟩, h.arrays.length)

def Heap.mutate (h : Heap) (r : Nat) (l : List Product) : Heap :=
  ⟨h.arrays.set r l⟩

/-- `sortProductsByPrice` from `productUtils.ts`, on the heap:
`return [...products].sort((a, b) => ...)` — allocate a fresh copy of the
input array, sort the copy in place, return the copy's reference. -/
def sortProductsByPrice (h : Heap) (productsRef : Nat) (isAscending : Bool) :
    Heap × Nat :=
  let alloc1 := h.alloc (h.lookup productsRef)
  let h1 := alloc1.1
  let copyRef := alloc1.2
  let h2 := h1.mutate copyRef (sortProductsByPriceList (h1.lookup copyRef) isAscending)
  (h2, copyRef)

/-- `filterAndSortProducts` from `productUtils.ts` (value level):
filter, then sort the filtered list by price. -/
def filterAndSortProducts (products : List Product) (filters : ProductFilters) :
    List Product :=
  let filtered := filterProducts products filters
  sortProductsByPriceList filtered filters.isAscending

/-- `getProducts` from the frontend product service. `apiResult` is the
outcome of `api.get('/products')`: `none` when the call throws (network
error / non-2xx), `some apiProducts` on success. On failure only the
bundled mock dataset is returned; on success the API products are returned
first, followed by the mock products whose `id.toString()` does not occur
among the API products. -/
def getProducts (apiResult : Option (List Product)) (mockData : List Product) :
    List Product :=
  match apiResult with
  | some apiProducts =>
      apiProducts ++ mockData.filter (fun mockProduct =>
        !(apiProducts.any (fun apiProduct =>
          apiProduct.id.jsToString == mockProduct.id.jsToString)))
  | none => mockData

/-- `CreateProductData` from the frontend product service. -/
structure CreateProductData where
  name : List Char
  price : ℚ
  stock : ℚ
deriving DecidableEq, Repr

/-- `createProduct` from the frontend product service. `uuid` is the value
of `crypto.randomUUID()`; `apiResult` is the outcome of
`api.post('/products', productWithId)` (`none` when the call throws).
The catch branch resolves with the locally fabricated `productWithId`. -/
def createProduct (productData : CreateProductData) (uuid : String)
    (apiResult : Option Product) : Product :=
  let productWithId : Product :=
    { id := .str uuid, name := productData.name, price := productData.price,
      stock := some productData.stock }
  match apiResult with
  | some created => created
  | none => productWithId

end Frontend

namespace Backend

/-- Backend `Product` domain entity (fields after construction).
`id` is `null` until persistence assigns one; the store assigns row ids,
modelled as the row's index. Error `message` strings are human-readable
text and are not modelled; errors are identified by `code` and `httpCode`. -/
structure Product where
  id : Option Nat := none
  name : List Char
  price : ℚ
  stock : ℚ
deriving DecidableEq, Repr

/-- `Number(price.toFixed(2))`: round to two decimals (half away from zero;
only ever applied to positive prices, where this is half-up). -/
def round2 (q : ℚ) : ℚ := ((q * 100 + 1 / 2).floor : ℚ) / 100

/-- The `Product` constructor's validations, for a request whose `name` is
a JS string and whose `price` and `stock` are JS numbers (so the
`typeof` checks pass).  `!name` is true exactly for the empty string and
`!price` exactly for `0`; `stock === undefined || stock === null` cannot
hold for a number.  A thrown `Error` is modelled as `Except.error` with the
source's message. -/
def Product.construct (name : List Char) (price stock : ℚ) :
    Except String Product :=
  if name = [] ∨ price = 0 then
    .error "Product: Todos los campos son requeridos (name, price, stock)"
  else if price ≤ 0 then
    .error "Product: El precio debe ser un numero mayor a 0"
  else if stock < 0 ∨ stock.den ≠ 1 then
    .error "Product: El stock debe ser un numero entero mayor o igual a 0"
  else if (TextUtils.jsTrim name).length = 0 then
    .error "Product: El nombre no puede estar vacio"
  else if 255 < name.length then
    .error "Product: El nombre no puede exceder 255 caracteres"
  else
    .ok { name := TextUtils.jsTrim name, price := round2 price, stock := stock }

/-- The products table. -/
abbrev Store := List Product

/-- `SequelizeProductRepository.findByName`: exact match on
`name.trim()`. -/
def findByName (store : Store) (name : List Char) : Option Product :=
  store.find? (fun p => p.name == TextUtils.jsTrim name)

/-- `SequelizeProductRepository.create`: insert a row, the store assigning
its id, and return the created row. -/
def repoCreate (store : Store) (entity : Product) : Product × Store :=
  let row := { entity with id := some store.length }
  (row, store ++ [row])

/-- `SequelizeProductRepository.getAll`: all rows, `ORDER BY name ASC`. -/
def getAll (store : Store) : List Product :=
  store.mergeSort (fun a b => !decide (b.name < a.name))

/-- `AppError` (code and HTTP status; the human message is not modelled). -/
structure AppError where
  code : String
  httpCode : Nat
deriving DecidableEq, Repr

/-- The backend `Result` union (`ok`/`fail`). -/
inductive Result (α : Type)
  | ok (value : α)
  | fail (error : AppError)
deriving DecidableEq, Repr

/-- `CreateProductUseCase.execute` for a request with a string `name` and
numeric `price` and `stock`, together with the store it leaves behind.
First the duplicate-name check (`PRODUCT_ALREADY_EXISTS`, 400, nothing
written); then entity construction, whose thrown validation errors the
`catch` turns into `VALIDATION_ERROR` (400, nothing written); then the
insert.  `repoCreate` always returns the created row, so the
`PRODUCT_NOT_CREATED` branch guarding a falsy insert result is
unreachable in this model of the store. -/
def CreateProductUseCase.execute (store : Store) (name : List Char)
    (price stock : ℚ) : Result Product × Store :=
  match findByName store name with
  | some _ => (.fail ⟨"PRODUCT_ALREADY_EXISTS", 400⟩, store)
  | none =>
    match Product.construct name price stock with
    | .error _ => (.fail ⟨"VALIDATION_ERROR", 400⟩, store)
    | .ok productEntity =>
        (.ok (repoCreate store productEntity).1, (repoCreate store productEntity).2)

/-- `GetProductUseCase.execute`: fetch all rows; an empty result is the
failure `PRODUCT_NOT_FOUND` (404). -/
def GetProductUseCase.execute (store : Store) : Result (List Product) :=
  if (getAll store).length = 0 then .fail ⟨"PRODUCT_NOT_FOUND", 404⟩
  else .ok (getAll store)

/-- JS values a JSON request-body field can hold (`undefined` meaning the
field is absent). -/
inductive JSValue
  | undefined
  | null
  | str (s : List Char)
  | num (q : ℚ)
  | boolean (b : Bool)
deriving DecidableEq, Repr

/-- JS truthiness. -/
def JSValue.truthy : JSValue → Bool
  | .undefined => false
  | .null => false
  | .str s => !s.isEmpty
  | .num q => decide (q ≠ 0)
  | .boolean b => b

/-- A `POST /products` request body: the three extracted fields. -/
structure RequestBody where
  name : JSValue
  price : JSValue
  stock : JSValue
deriving DecidableEq, Repr

/-- Outcome of the router's field-presence gate on `POST /products`. -/
inductive PostGate
  | missingFields
  | delegated (name price stock : JSValue)
deriving DecidableEq, Repr

/-- The gate in `buildProductRouter`'s POST handler:
`if (!name || price === undefined || stock === undefined)` respond
400 `MISSING_FIELDS`, otherwise call `productService.create`. -/
def postProductsGate (body : RequestBody) : PostGate :=
  if !body.name.truthy || body.price == JSValue.undefined
      || body.stock == JSValue.undefined then
    .missingFields
  else
    .delegated body.name body.price body.stock

/-- Body of a `GET /products` HTTP response. -/
inductive GetResponseBody
  | products (ps : List Product)
  | error (code : String)
deriving DecidableEq, Repr

/-- An HTTP response: status code and JSON body. -/
structure HttpResponse (β : Type) where
  status : Nat
  body : β
deriving DecidableEq, Repr

/-- `buildProductRouter`'s GET handler: map a `PRODUCT_NOT_FOUND` failure
to 404 (other failures to their `httpCode`), success to 200 with the
array. -/
def getProductsRoute (store : Store) : HttpResponse GetResponseBody :=
  match GetProductUseCase.execute store with
  | .fail e =>
      ⟨if e.code = "PRODUCT_NOT_FOUND" then 404 else e.httpCode, .error e.code⟩
  | .ok ps => ⟨200, .products ps⟩

end Backend

unseal List.merge List.mergeSort

namespace TextUtils

theorem dropWhile_dropWhile (p : Char → Bool) (l : List Char) :
    (l.dropWhile p).dropWhile p = l.dropWhile p := by
  induction l with
  | nil => rfl
  | cons a t ih =>
      by_cases h : p a
      · simp [List.dropWhile_cons, h, ih]
      · simp [List.dropWhile_cons, h]

theorem dropWhile_head_false (p : Char → Bool) (l : List Char) :
    l.dropWhile p = [] ∨ ∃ a t, l.dropWhile p = a :: t ∧ p a = false := by
  induction l with
  | nil => exact .inl rfl
  | cons a t ih =>
      by_cases h : p a
      · simpa [List.dropWhile_cons, h] using ih
      · exact .inr ⟨a, t, by simp [List.dropWhile_cons, h], by simp [h]⟩

theorem dropWhile_twice_trim (p : Char → Bool) (l : List Char) :
    (((((l.dropWhile p).reverse.dropWhile p).reverse.dropWhile p).reverse.dropWhile
      p).reverse) = ((l.dropWhile p).reverse.dropWhile p).reverse := by
  have hpre : (((l.dropWhile p).reverse.dropWhile p).reverse) <+: (l.dropWhile p) := by
    rw [← List.reverse_suffix]
    simpa using @List.dropWhile_suffix Char ((l.dropWhile p).reverse) p
  have h1 : (((l.dropWhile p).reverse.dropWhile p).reverse).dropWhile p
      = ((l.dropWhile p).reverse.dropWhile p).reverse := by
    rcases he : ((l.dropWhile p).reverse.dropWhile p).reverse with _ | ⟨a, t⟩
    · rfl
    · rw [List.dropWhile_cons]
      rw [he] at hpre
      have hpa : p a = false := by
        rcases dropWhile_head_false p l with h | ⟨b, u, hbu, hpb⟩
        · rw [h] at hpre
          exact absurd hpre (by simp)
        · rw [hbu] at hpre
          obtain ⟨rfl, -⟩ := List.cons_prefix_cons.mp hpre
          exact hpb
      simp [hpa]
  rw [h1, List.reverse_reverse, dropWhile_dropWhile]

theorem jsTrim_idem (l : List Char) : jsTrim (jsTrim l) = jsTrim l := by
  unfold jsTrim
  exact dropWhile_twice_trim isJsWhitespace l

theorem jsTrim_sublist (l : List Char) : (jsTrim l).Sublist l := by
  unfold jsTrim
  have h2 : (((l.dropWhile isJsWhitespace).reverse.dropWhile
      isJsWhitespace).reverse).Sublist ((l.dropWhile isJsWhitespace).reverse.reverse) :=
    (List.dropWhile_sublist _).reverse
  rw [List.reverse_reverse] at h2
  exact h2.trans (List.dropWhile_sublist _)

theorem mem_normalizeText_isRegexKept {c : Char} {s : List Char}
    (h : c ∈ normalizeText s) : isRegexKept c = true := by
  have hsub := jsTrim_sublist
    ((((s.map jsToLower).flatMap nfd).filter
      (fun c => !isCombiningMark c)).filter isRegexKept)
  exact List.of_mem_filter (hsub.subset h)

theorem isRegexKept_codes {c : Char} (h : isRegexKept c = true) :
    (97 ≤ c.toNat ∧ c.toNat ≤ 122) ∨ (48 ≤ c.toNat ∧ c.toNat ≤ 57) ∨
    (c.toNat = 9 ∨ c.toNat = 10 ∨ c.toNat = 11 ∨ c.toNat = 12 ∨ c.toNat = 13 ∨
     c.toNat = 32 ∨ c.toNat = 0xA0 ∨ c.toNat = 0x1680 ∨
     (0x2000 ≤ c.toNat ∧ c.toNat ≤ 0x200A) ∨ c.toNat = 0x2028 ∨ c.toNat = 0x2029 ∨
     c.toNat = 0x202F ∨ c.toNat = 0x205F ∨ c.toNat = 0x3000 ∨ c.toNat = 0xFEFF) := by
  simp only [isRegexKept, isJsWhitespace, isJsWhitespaceCode, Bool.or_eq_true,
    Bool.and_eq_true, beq_iff_eq, decide_eq_true_eq] at h
  omega

theorem jsToLower_fixed {c : Char} (h : isRegexKept c = true) : jsToLower c = c := by
  have hc := isRegexKept_codes h
  unfold jsToLower
  rw [if_neg (by omega), if_neg (by omega)]

theorem nfd_fixed {c : Char} (h : isRegexKept c = true) : nfd c = [c] := by
  have hc := isRegexKept_codes h
  unfold nfd
  repeat rw [if_neg (by omega)]

theorem not_combining_of_kept {c : Char} (h : isRegexKept c = true) :
    (!isCombiningMark c) = true := by
  have hc := isRegexKept_codes h
  have : isCombiningMark c = false := by
    simp only [isCombiningMark, Bool.and_eq_false_iff, decide_eq_false_iff_not]
    omega
  simp [this]

theorem map_id_of_fixed {f : Char → Char} {l : List Char}
    (h : ∀ c ∈ l, f c = c) : l.map f = l := by
  induction l with
  | nil => rfl
  | cons a t ih =>
      simp only [List.map_cons, h a (by simp), List.cons.injEq, true_and]
      exact ih (fun c hc => h c (by simp [hc]))

theorem flatMap_id_of_fixed {g : Char → List Char} {l : List Char}
    (h : ∀ c ∈ l, g c = [c]) : l.flatMap g = l := by
  induction l with
  | nil => rfl
  | cons a t ih =>
      simp only [List.flatMap_cons, h a (by simp)]
      simp only [List.singleton_append, List.cons.injEq, true_and]
      exact ih (fun c hc => h c (by simp [hc]))

theorem normalizeText_fixes (s : List Char) :
    normalizeText (normalizeText s) = normalizeText s := by
  have hmem : ∀ c ∈ normalizeText s, isRegexKept c = true :=
    fun c hc => mem_normalizeText_isRegexKept hc
  rw [show normalizeText (normalizeText s)
      = jsTrim (((((normalizeText s).map jsToLower).flatMap nfd).filter
          (fun c => !isCombiningMark c)).filter isRegexKept) from rfl]
  rw [map_id_of_fixed (fun c hc => jsToLower_fixed (hmem c hc))]
  rw [flatMap_id_of_fixed (fun c hc => nfd_fixed (hmem c hc))]
  rw [List.filter_eq_self.mpr (fun c hc => not_combining_of_kept (hmem c hc))]
  rw [List.filter_eq_self.mpr hmem]
  exact jsTrim_idem _

end TextUtils

/-- C6: `normalizeText` is idempotent — `normalize(normalize(x)) = normalize(x)`
for every string `x` — and accent-insensitive:
`normalize("lápiz") = normalize("lapiz")`. -/
theorem C6_normalizeText_idempotent_accent_insensitive :
    (∀ s : List Char,
      TextUtils.normalizeText (TextUtils.normalizeText s) = TextUtils.normalizeText s) ∧
    TextUtils.normalizeText "lápiz".toList = TextUtils.normalizeText "lapiz".toList := by
  exact ⟨TextUtils.normalizeText_fixes, by decide⟩

/-- C5 counterexample: the claim says every non-alphanumeric character is
removed, but `normalizeText "a b"` keeps the interior space, which is not
alphanumeric. -/
theorem C5_normalizeText_counterexample :
    ' ' ∈ TextUtils.normalizeText ['a', ' ', 'b'] ∧
    ¬ (('a' ≤ ' ' ∧ ' ' ≤ 'z') ∨ ('0' ≤ ' ' ∧ ' ' ≤ '9')) := by decide

/-- C5 (amended): `normalizeText` lowercases, strips diacritics by Unicode
decomposition followed by combining-mark removal, and removes every
character that is neither a lowercase ASCII letter, an ASCII digit, nor
whitespace — interior whitespace is kept and only leading/trailing
whitespace is trimmed; consequently every character of the result is a
lowercase letter, a digit, or whitespace. -/
theorem C5_normalizeText_amended (s : List Char) :
    TextUtils.normalizeText s = TextUtils.normalizeTextAmendedSpec s ∧
    ∀ c ∈ TextUtils.normalizeText s, TextUtils.isRegexKept c = true := by
  constructor
  · unfold TextUtils.normalizeText TextUtils.normalizeTextAmendedSpec
    rw [List.filter_filter]
  · exact fun c hc => TextUtils.mem_normalizeText_isRegexKept hc

/-- C5 amended-theorem witness at a concrete input. -/
theorem C5_normalizeText_amended_witness :
    TextUtils.normalizeText "Lápiz #2 b".toList
      = TextUtils.normalizeTextAmendedSpec "Lápiz #2 b".toList ∧
    TextUtils.isRegexKept ' ' = true := by
  exact ⟨(C5_normalizeText_amended "Lápiz #2 b".toList).1,
    (C5_normalizeText_amended "Lápiz #2 b".toList).2 ' ' (by decide)⟩

/-- C10: the client `createProduct` never propagates a failure — when the
API call fails it resolves with a locally fabricated product made of the
submitted fields plus the client-generated random UUID as `id`, a plain
`Product` value like a server-created one. -/
theorem C10_createProduct_fallback (productData : Frontend.CreateProductData)
    (uuid : String) :
    Frontend.createProduct productData uuid none =
      { id := .str uuid, name := productData.name, price := productData.price,
        image := none, stock := some productData.stock } := rfl

/-- C8: `getProducts` returns exactly the bundled static dataset when the
API call fails; on success it returns the API products followed by the
static products whose id (as a string) matches no API product: every API
product appears, and a static product's entry survives the merge exactly
when no API product has its id. -/
theorem C8_getProducts_merge (api mock : List Frontend.Product) :
    Frontend.getProducts none mock = mock ∧
    Frontend.getProducts (some api) mock =
      api ++ mock.filter (fun m =>
        !(api.any (fun a => a.id.jsToString == m.id.jsToString))) ∧
    (∀ p ∈ api, p ∈ Frontend.getProducts (some api) mock) ∧
    (∀ m, m ∈ mock.filter (fun m =>
        !(api.any (fun a => a.id.jsToString == m.id.jsToString))) ↔
      m ∈ mock ∧ ∀ a ∈ api, a.id.jsToString ≠ m.id.jsToString) := by
  refine ⟨rfl, rfl, ?_, ?_⟩
  · intro p hp
    exact List.mem_append_left _ hp
  · intro m
    simp [List.mem_filter, List.any_eq_true]

/-- C8 witness at concrete data: an API product with the same id shadows
the static entry, a fresh static entry survives, API failure returns the
mock dataset unchanged. -/
theorem C8_getProducts_merge_witness :
    Frontend.getProducts (some [⟨.str "1", ['a'], 5, none, none⟩])
        [⟨.num 1, ['b'], 6, none, none⟩, ⟨.num 2, ['c'], 7, none, none⟩] =
      [⟨.str "1", ['a'], 5, none, none⟩, ⟨.num 2, ['c'], 7, none, none⟩] ∧
    (⟨.str "1", ['a'], 5, none, none⟩ : Frontend.Product) ∈
      Frontend.getProducts (some [⟨.str "1", ['a'], 5, none, none⟩])
        [⟨.num 1, ['b'], 6, none, none⟩, ⟨.num 2, ['c'], 7, none, none⟩] := by
  refine ⟨by decide, ?_⟩
  exact (C8_getProducts_merge [⟨.str "1", ['a'], 5, none, none⟩]
      [⟨.num 1, ['b'], 6, none, none⟩, ⟨.num 2, ['c'], 7, none, none⟩]).2.2.1
    _ (by decide)

/-- C9 counterexample: a request body in which all three fields are present
— `name` is the (present) empty string, `price` and `stock` are numbers —
is still answered with `MISSING_FIELDS`, because the gate tests `!name`
(falsiness), not absence. -/
theorem C9_postGate_counterexample :
    Backend.postProductsGate
        ⟨Backend.JSValue.str [], Backend.JSValue.num 1, Backend.JSValue.num 1⟩ =
      Backend.PostGate.missingFields ∧
    Backend.JSValue.str [] ≠ Backend.JSValue.undefined ∧
    Backend.JSValue.num 1 ≠ Backend.JSValue.undefined := by decide

/-- C9 (amended): `POST /products` is answered 400 `MISSING_FIELDS` iff
`name` is absent or falsy (empty string, `null`, `0`, `false`), or `price`
is absent, or `stock` is absent; otherwise the request proceeds to the use
case with the three extracted fields. -/
theorem C9_postGate_amended (body : Backend.RequestBody) :
    (Backend.postProductsGate body = Backend.PostGate.missingFields ↔
      body.name.truthy = false ∨ body.price = Backend.JSValue.undefined ∨
      body.stock = Backend.JSValue.undefined) ∧
    (body.name.truthy = true → body.price ≠ Backend.JSValue.undefined →
      body.stock ≠ Backend.JSValue.undefined →
      Backend.postProductsGate body =
        Backend.PostGate.delegated body.name body.price body.stock) := by
  unfold Backend.postProductsGate
  constructor
  · constructor
    · intro h
      by_contra hc
      push_neg at hc
      obtain ⟨h1, h2, h3⟩ := hc
      rw [if_neg (by simp [h1, h2, h3])] at h
      exact Backend.PostGate.noConfusion h
    · intro h
      rw [if_pos]
      simp only [Bool.or_eq_true, Bool.not_eq_true', beq_iff_eq]
      tauto
  · intro h1 h2 h3
    rw [if_neg (by simp [h1, h2, h3])]

/-- C9 amended-theorem witness: a well-formed body proceeds to the use
case, and one with an absent price is answered `MISSING_FIELDS`. -/
theorem C9_postGate_amended_witness :
    Backend.postProductsGate
        ⟨Backend.JSValue.str ['a'], Backend.JSValue.num 1, Backend.JSValue.num 2⟩ =
      Backend.PostGate.delegated (Backend.JSValue.str ['a'])
        (Backend.JSValue.num 1) (Backend.JSValue.num 2) ∧
    Backend.postProductsGate
        ⟨Backend.JSValue.str ['a'], Backend.JSValue.undefined, Backend.JSValue.num 2⟩ =
      Backend.PostGate.missingFields := by
  constructor
  · exact (C9_postGate_amended
      ⟨Backend.JSValue.str ['a'], Backend.JSValue.num 1, Backend.JSValue.num 2⟩).2
      (by decide) (by decide) (by decide)
  · exact (C9_postGate_amended
      ⟨Backend.JSValue.str ['a'], Backend.JSValue.undefined, Backend.JSValue.num 2⟩).1.mpr
      (.inr (.inl rfl))

/-- C2: creating a product whose trimmed name equals the name of an
already-stored product fails with `PRODUCT_ALREADY_EXISTS` (HTTP 400) and
leaves the store unchanged. -/
theorem C2_create_duplicate_name (store : Backend.Store) (name : List Char)
    (price stock : ℚ) (h : ∃ p ∈ store, p.name = TextUtils.jsTrim name) :
    Backend.CreateProductUseCase.execute store name price stock =
      (.fail ⟨"PRODUCT_ALREADY_EXISTS", 400⟩, store) := by
  have hs : (Backend.findByName store name).isSome := by
    rw [Backend.findByName, List.find?_isSome]
    obtain ⟨p, hp, he⟩ := h
    exact ⟨p, hp, by simp [he]⟩
  obtain ⟨p, hp⟩ := Option.isSome_iff_exists.mp hs
  unfold Backend.CreateProductUseCase.execute
  rw [hp]

/-- C2 witness: the store holds "a"; creating " a " (which trims to "a")
is rejected with `PRODUCT_ALREADY_EXISTS` and the store is unchanged. -/
theorem C2_create_duplicate_name_witness :
    Backend.CreateProductUseCase.execute [⟨some 0, ['a'], 1, 1⟩] " a ".toList 2 3 =
      (.fail ⟨"PRODUCT_ALREADY_EXISTS", 400⟩, [⟨some 0, ['a'], 1, 1⟩]) :=
  C2_create_duplicate_name [⟨some 0, ['a'], 1, 1⟩] " a ".toList 2 3 (by decide)

/-- C3 counterexample: with a product named "a" already stored, a create
request for name "a" with `price = 0 ≤ 0` (and stock 0) does NOT fail with
`VALIDATION_ERROR` — the duplicate-name check runs first and the code
answers `PRODUCT_ALREADY_EXISTS`. -/
theorem C3_create_invalid_counterexample :
    ((0 : ℚ) ≤ 0) ∧
    (Backend.CreateProductUseCase.execute [⟨some 0, ['a'], 1, 1⟩] ['a'] 0 0).1 ≠
      Backend.Result.fail ⟨"VALIDATION_ERROR", 400⟩ ∧
    (Backend.CreateProductUseCase.execute [⟨some 0, ['a'], 1, 1⟩] ['a'] 0 0).1 =
      Backend.Result.fail ⟨"PRODUCT_ALREADY_EXISTS", 400⟩ := by decide

/-- C3 (amended): provided no stored product already bears the request's
trimmed name, every create request with `price ≤ 0`, or with a stock that
is negative or not an integer, fails with `VALIDATION_ERROR` (HTTP 400)
and leaves the store unchanged (when the name does collide, the failure is
`PRODUCT_ALREADY_EXISTS` instead, and still nothing is inserted). -/
theorem C3_create_invalid_rejected (store : Backend.Store) (name : List Char)
    (price stock : ℚ)
    (hname : ∀ p ∈ store, p.name ≠ TextUtils.jsTrim name)
    (hbad : price ≤ 0 ∨ stock < 0 ∨ stock.den ≠ 1) :
    Backend.CreateProductUseCase.execute store name price stock =
      (.fail ⟨"VALIDATION_ERROR", 400⟩, store) := by
  have hf : Backend.findByName store name = none := by
    rw [Backend.findByName, List.find?_eq_none]
    intro p hp
    simpa using hname p hp
  have hc : ∃ msg, Backend.Product.construct name price stock = Except.error msg := by
    unfold Backend.Product.construct
    split_ifs with h1 h2 h3 h4 h5 <;> try exact ⟨_, rfl⟩
    exfalso
    rcases hbad with h | h | h
    · rcases lt_or_eq_of_le h with hlt | heq
      · exact h2 (le_of_lt hlt)
      · exact h1 (Or.inr heq)
    · exact h3 (Or.inl h)
    · exact h3 (Or.inr h)
  obtain ⟨msg, hmsg⟩ := hc
  unfold Backend.CreateProductUseCase.execute
  rw [hf, hmsg]

/-- C3 amended-theorem witness: empty store, price −1 → `VALIDATION_ERROR`,
nothing inserted. -/
theorem C3_create_invalid_rejected_witness :
    Backend.CreateProductUseCase.execute [] ['a'] (-1) 0 =
      (.fail ⟨"VALIDATION_ERROR", 400⟩, []) :=
  C3_create_invalid_rejected [] ['a'] (-1) 0 (by decide) (by norm_num)

/-- C4: `GET /products` on an empty store answers 404 `PRODUCT_NOT_FOUND`
(not 200 with an empty list); on a non-empty store it answers 200 with the
product array (the store's rows, reordered by name). -/
theorem C4_getProducts_route (store : Backend.Store) :
    (store = [] →
      Backend.getProductsRoute store =
        ⟨404, Backend.GetResponseBody.error "PRODUCT_NOT_FOUND"⟩) ∧
    (store ≠ [] →
      Backend.getProductsRoute store =
        ⟨200, Backend.GetResponseBody.products (Backend.getAll store)⟩ ∧
      (Backend.getAll store).Perm store) := by
  constructor
  · rintro rfl
    decide
  · intro h
    have hperm : (Backend.getAll store).Perm store := List.mergeSort_perm store _
    have hlen : ¬ (Backend.getAll store).length = 0 := by
      rw [hperm.length_eq]
      simpa using h
    refine ⟨?_, hperm⟩
    unfold Backend.getProductsRoute Backend.GetProductUseCase.execute
    rw [if_neg hlen]

/-- C4 witness: the empty store gives 404 `PRODUCT_NOT_FOUND`; a singleton
store gives 200 with its one product. -/
theorem C4_getProducts_route_witness :
    Backend.getProductsRoute [] =
      ⟨404, Backend.GetResponseBody.error "PRODUCT_NOT_FOUND"⟩ ∧
    Backend.getProductsRoute [⟨some 0, ['a'], 1, 1⟩] =
      ⟨200, Backend.GetResponseBody.products
        (Backend.getAll [⟨some 0, ['a'], 1, 1⟩])⟩ := by
  refine ⟨(C4_getProducts_route []).1 rfl, ?_⟩
  exact ((C4_getProducts_route [⟨some 0, ['a'], 1, 1⟩]).2 (by decide)).1

/-- C7: `sortProductsByPrice` does not mutate its input array — after the
call, the input reference still holds exactly its old elements; the result
is a freshly allocated array holding the sorted copy. -/
theorem C7_sortProductsByPrice_no_mutation (h : Frontend.Heap) (r : Nat)
    (isAscending : Bool) (hr : r < h.arrays.length) :
    (Frontend.sortProductsByPrice h r isAscending).1.lookup r = h.lookup r ∧
    (Frontend.sortProductsByPrice h r isAscending).2 ≠ r ∧
    (Frontend.sortProductsByPrice h r isAscending).1.lookup
        (Frontend.sortProductsByPrice h r isAscending).2 =
      Frontend.sortProductsByPriceList (h.lookup r) isAscending := by
  unfold Frontend.sortProductsByPrice
  simp only [Frontend.Heap.alloc, Frontend.Heap.mutate, Frontend.Heap.lookup]
  refine ⟨?_, by omega, ?_⟩
  · rw [List.getD_eq_getElem?_getD, List.getElem?_set_ne (by omega),
      List.getElem?_append_left hr, ← List.getD_eq_getElem?_getD]
  · rw [List.getD_eq_getElem?_getD, List.getElem?_set_self (by simp),
      List.getD_eq_getElem?_getD, List.getElem?_concat_length]
    rfl

/-- C7 witness on a concrete two-element heap cell. -/
theorem C7_sortProductsByPrice_no_mutation_witness :
    (Frontend.sortProductsByPrice
        ⟨[[⟨.num 1, ['a'], 9, none, none⟩, ⟨.num 2, ['b'], 3, none, none⟩]]⟩ 0 true).1.lookup 0 =
      (Frontend.Heap.mk
        [[⟨.num 1, ['a'], 9, none, none⟩, ⟨.num 2, ['b'], 3, none, none⟩]]).lookup 0 ∧
    (Frontend.sortProductsByPrice
        ⟨[[⟨.num 1, ['a'], 9, none, none⟩, ⟨.num 2, ['b'], 3, none, none⟩]]⟩ 0 true).2 ≠ 0 ∧
    (Frontend.sortProductsByPrice
        ⟨[[⟨.num 1, ['a'], 9, none, none⟩, ⟨.num 2, ['b'], 3, none, none⟩]]⟩ 0 true).1.lookup
        (Frontend.sortProductsByPrice
          ⟨[[⟨.num 1, ['a'], 9, none, none⟩, ⟨.num 2, ['b'], 3, none, none⟩]]⟩ 0 true).2 =
      Frontend.sortProductsByPriceList
        ((Frontend.Heap.mk
          [[⟨.num 1, ['a'], 9, none, none⟩, ⟨.num 2, ['b'], 3, none, none⟩]]).lookup 0) true :=
  C7_sortProductsByPrice_no_mutation
    ⟨[[⟨.num 1, ['a'], 9, none, none⟩, ⟨.num 2, ['b'], 3, none, none⟩]]⟩ 0 true
    (by decide)

theorem Frontend.priceLe_trans (isAscending : Bool) (a b c : Frontend.Product)
    (h1 : Frontend.priceLe isAscending a b = true)
    (h2 : Frontend.priceLe isAscending b c = true) :
    Frontend.priceLe isAscending a c = true := by
  cases isAscending <;>
    simp only [Frontend.priceLe, if_true, if_false, Bool.false_eq_true,
      decide_eq_true_eq] at h1 h2 ⊢
  · exact le_trans h2 h1
  · exact le_trans h1 h2

theorem Frontend.priceLe_total (isAscending : Bool) (a b : Frontend.Product) :
    (Frontend.priceLe isAscending a b || Frontend.priceLe isAscending b a) = true := by
  cases isAscending <;>
    simp only [Frontend.priceLe, if_true, if_false, Bool.false_eq_true,
      Bool.or_eq_true, decide_eq_true_eq]
  · exact le_total _ _
  · exact le_total _ _

/-- C1: `filterAndSortProducts` returns exactly (a permutation of) the
input's products whose normalized name contains the normalized search term
and whose price lies in the inclusive range, sorted by price ascending when
`isAscending` and descending otherwise. -/
theorem C1_filterAndSortProducts_spec (products : List Frontend.Product)
    (filters : Frontend.ProductFilters) :
    (Frontend.filterAndSortProducts products filters).Perm
      (products.filter (fun p =>
        TextUtils.jsIncludes (TextUtils.normalizeText p.name)
            (TextUtils.normalizeText filters.searchTerm) &&
        (decide (filters.priceRange.1 ≤ p.price) &&
         decide (p.price ≤ filters.priceRange.2)))) ∧
    (filters.isAscending = true →
      (Frontend.filterAndSortProducts products filters).Pairwise
        (fun a b => a.price ≤ b.price)) ∧
    (filters.isAscending = false →
      (Frontend.filterAndSortProducts products filters).Pairwise
        (fun a b => b.price ≤ a.price)) := by
  obtain ⟨st, pr, asc⟩ := filters
  have hs := @List.sorted_mergeSort Frontend.Product (Frontend.priceLe asc)
    (Frontend.priceLe_trans asc)
    (Frontend.priceLe_total asc)
    (Frontend.filterProducts products ⟨st, pr, asc⟩)
  refine ⟨?_, ?_, ?_⟩
  · exact List.mergeSort_perm (Frontend.filterProducts products ⟨st, pr, asc⟩) _
  · rintro (rfl : asc = true)
    exact hs.imp (fun hab => by simpa [Frontend.priceLe] using hab)
  · rintro (rfl : asc = false)
    exact hs.imp (fun hab => by simpa [Frontend.priceLe] using hab)

/-- C1 witness, both sort directions on a concrete catalog. -/
theorem C1_filterAndSortProducts_spec_witness :
    (Frontend.filterAndSortProducts
        [⟨.num 1, "Lápiz".toList, 30, none, none⟩,
         ⟨.num 2, "Borrador".toList, 20, none, none⟩,
         ⟨.num 3, "lapicero".toList, 25, none, none⟩]
        ⟨"lapi".toList, (15, 65), true⟩).Pairwise
      (fun a b => a.price ≤ b.price) ∧
    (Frontend.filterAndSortProducts
        [⟨.num 1, "Lápiz".toList, 30, none, none⟩,
         ⟨.num 2, "Borrador".toList, 20, none, none⟩,
         ⟨.num 3, "lapicero".toList, 25, none, none⟩]
        ⟨"".toList, (15, 25), false⟩).Pairwise
      (fun a b => b.price ≤ a.price) := by
  constructor
  · exact (C1_filterAndSortProducts_spec
      [⟨.num 1, "Lápiz".toList, 30, none, none⟩,
       ⟨.num 2, "Borrador".toList, 20, none, none⟩,
       ⟨.num 3, "lapicero".toList, 25, none, none⟩]
      ⟨"lapi".toList, (15, 65), true⟩).2.1 rfl
  · exact (C1_filterAndSortProducts_spec
      [⟨.num 1, "Lápiz".toList, 30, none, none⟩,
       ⟨.num 2, "Borrador".toList, 20, none, none⟩,
       ⟨.num 3, "lapicero".toList, 25, none, none⟩]
      ⟨"".toList, (15, 25), false⟩).2.2 rfl
